import Mathlib

/-!
Shallow embedding of the immich prometheus exporter
(src/immich_exporter/exporter.py) and proofs about its collection
pipeline, readiness backoff and shutdown signal handling.

Modelling conventions:
* JSON documents returned by the upstream API are modelled as structures
  whose fields are `Option`-valued: `none` models a missing key, and
  `getField` models a Python subscript `resp["key"]` (raising `KeyError`
  when the key is absent).
* Python exceptions are modelled with `Except PyErr`: an uncaught
  exception propagating out of a transformer is an `Except.error`.
  `PyErr.unboundLocal` models the `UnboundLocalError` raised when a
  transformer's `except` branch caught a request error, logged it, and
  execution then fell through to use the never-assigned response variable.
* A transport-level request failure (`requests.exceptions.RequestException`)
  is modelled as `Except.error ()` in the fetched-response argument of a
  transformer.
* Numeric JSON values are modelled as `Int`; metric values are `Int` or
  `Bool` (`MetricValue`).
-/

/-- Python exceptions that the transformer bodies can raise. -/
inductive PyErr where
  | keyError
  | indexError
  | unboundLocal
deriving DecidableEq, Repr

/-- `resp["key"]` on a JSON object field: `KeyError` when the key is absent. -/
def getField : Option α → Except PyErr α
  | some a => Except.ok a
  | none => Except.error PyErr.keyError

/-- Helper for `pySplit`: walks the character list, accumulating the
current token (reversed); whitespace ends the token, runs of whitespace
yield no empty tokens. -/
def splitWsAux : List Char → List Char → List String
  | [], acc => if acc.isEmpty then [] else [String.mk acc.reverse]
  | c :: cs, acc =>
    if c.isWhitespace then
      if acc.isEmpty then splitWsAux cs []
      else String.mk acc.reverse :: splitWsAux cs []
    else splitWsAux cs (c :: acc)

/-- Python `str.split()` with no separator: whitespace-delimited tokens,
empty tokens dropped. -/
def pySplit (s : String) : List String := splitWsAux s.data []

/-- Python `s.split()[0]`: the first whitespace token, `IndexError` when
the string has no tokens. -/
def pyFirstToken (s : String) : Except PyErr String :=
  match pySplit s with
  | [] => Except.error PyErr.indexError
  | t :: _ => Except.ok t

/-- Total variant of `pyFirstToken`, used to state results about valid
inputs (inputs whose user names have at least one token). -/
def firstTokenD (s : String) : String :=
  match pySplit s with
  | [] => ""
  | t :: _ => t

/-- Python `bool(s)` on a string: `True` iff the string is nonempty. -/
def pyBool (s : String) : Bool := !(s == "")

/-- A metric value: the exporter emits JSON numbers and one `bool`. -/
inductive MetricValue where
  | int (n : Int)
  | bool (b : Bool)
deriving DecidableEq, Repr

/-- One metric dict appended by a transformer.  `labels` keeps the
(ordered) key/value pairs of the Python dict, `mtype` is the optional
`"type"` entry (never set by this exporter; the collector defaults it to
`"gauge"`). -/
structure MetricRecord where
  name : String
  value : MetricValue
  labels : List (String × String)
  help : String
  mtype : Option String
deriving DecidableEq, Repr

/-- The ordered list of label keys of a record, the data the exposition
sink keys metric families on. -/
def labelKeys (r : MetricRecord) : List String := r.labels.map Prod.fst

/-- `metric.get("type", "gauge")` performed by `collect()`. -/
def recordMetricType (r : MetricRecord) : String := r.mtype.getD "gauge"

/-- Response of `GET /api/server/version`. -/
structure VersionResp where
  major : Option Int
  minor : Option Int
  patch : Option Int
deriving DecidableEq, Repr

/-- Response of `GET /api/server/storage`. -/
structure StorageResp where
  diskAvailableRaw : Option Int
  diskSizeRaw : Option Int
  diskUseRaw : Option Int
  diskUsagePercentage : Option Int
deriving DecidableEq, Repr

/-- One element of the `usageByUser` array of `GET /api/server/statistics`. -/
structure UserEntry where
  userName : Option String
  photos : Option Int
  videos : Option Int
  usage : Option Int
deriving DecidableEq, Repr

/-- Response of `GET /api/server/statistics`. -/
structure StatsResp where
  usageByUser : Option (List UserEntry)
deriving DecidableEq, Repr

/-- The host snapshot consumed by `get_system_stats` (`os.getloadavg()`,
`psutil.virtual_memory()`, `psutil.cpu_percent(...)`).  The numeric values
are opaque to every claim, so they are carried as `MetricValue`s. -/
structure SysStats where
  load1 : MetricValue
  load5 : MetricValue
  load15 : MetricValue
  memTotal : MetricValue
  memAvailable : MetricValue
  memPercent : MetricValue
  memUsed : MetricValue
  memFree : MetricValue
  cpu : MetricValue
deriving DecidableEq, Repr

/-- Body of `get_immich_server_version_number` after its retry loop has
produced a response: read `major`/`minor`/`patch`, format
`"major.minor.patch"`, and emit the single boolean record. -/
def get_immich_server_version_number (pref : String) (resp : VersionResp) :
    Except PyErr (List MetricRecord) :=
  match getField resp.major with
  | Except.error e => Except.error e
  | Except.ok ma =>
    match getField resp.minor with
    | Except.error e => Except.error e
    | Except.ok mi =>
      match getField resp.patch with
      | Except.error e => Except.error e
      | Except.ok pa =>
        let s := toString ma ++ "." ++ toString mi ++ "." ++ toString pa
        Except.ok [⟨pref ++ "_server_info_version_number",
          MetricValue.bool (pyBool s), [("version", s)],
          "server version number", none⟩]

/-- `get_immich_storage`: on a transport error the `except` branch only
logs, and the subsequent use of the unassigned `response_storage` raises
`UnboundLocalError`; otherwise the four disk records are built. -/
def get_immich_storage (pref : String) (resp : Except Unit StorageResp) :
    Except PyErr (List MetricRecord) :=
  match resp with
  | Except.error _ => Except.error PyErr.unboundLocal
  | Except.ok r =>
    match getField r.diskAvailableRaw with
    | Except.error e => Except.error e
    | Except.ok a =>
      match getField r.diskSizeRaw with
      | Except.error e => Except.error e
      | Except.ok s =>
        match getField r.diskUseRaw with
        | Except.error e => Except.error e
        | Except.ok u =>
          match getField r.diskUsagePercentage with
          | Except.error e => Except.error e
          | Except.ok p =>
            Except.ok [
              ⟨pref ++ "_server_info_diskAvailable", MetricValue.int a,
                [], "Available space on disk", none⟩,
              ⟨pref ++ "_server_info_totalDiskSize", MetricValue.int s,
                [], "total disk size", none⟩,
              ⟨pref ++ "_server_info_diskUse", MetricValue.int u,
                [], "disk space in use", none⟩,
              ⟨pref ++ "_server_info_diskUsagePercentage", MetricValue.int p,
                [], "disk usage in percent", none⟩]

/-- The three per-user records appended inside the loop of
`get_immich_users_stat`, given the already-read field values. -/
def userRecords (pref : String) (ph vi us : Int) (tok : String) :
    List MetricRecord :=
  [⟨pref ++ "_server_stats_photos_by_users", MetricValue.int ph,
      [("firstName", tok)], "Number of photos by user " ++ tok ++ " ", none⟩,
   ⟨pref ++ "_server_stats_videos_by_users", MetricValue.int vi,
      [("firstName", tok)], "Number of photos by user " ++ tok ++ " ", none⟩,
   ⟨pref ++ "_server_stats_usage_by_users", MetricValue.int us,
      [("firstName", tok)], "Number of photos by user " ++ tok ++ " ", none⟩]

/-- The `for x in range(0, user_count)` loop of `get_immich_users_stat`:
accumulates the three running totals and appends three records per user;
any missing field raises `KeyError`, an empty `userName` raises
`IndexError` from `split()[0]`. -/
def usersLoop (pref : String) :
    List UserEntry → Int → Int → Int →
      Except PyErr (List MetricRecord × Int × Int × Int)
  | [], p, v, u => Except.ok ([], p, v, u)
  | e :: rest, p, v, u =>
    match getField e.photos with
    | Except.error err => Except.error err
    | Except.ok ph =>
      match getField e.videos with
      | Except.error err => Except.error err
      | Except.ok vi =>
        match getField e.usage with
        | Except.error err => Except.error err
        | Except.ok us =>
          match getField e.userName with
          | Except.error err => Except.error err
          | Except.ok nm =>
            match pyFirstToken nm with
            | Except.error err => Except.error err
            | Except.ok tok =>
              match usersLoop pref rest (p + ph) (v + vi) (u + us) with
              | Except.error err => Except.error err
              | Except.ok (more, pt, vt, ut) =>
                Except.ok (userRecords pref ph vi us tok ++ more, pt, vt, ut)

/-- `get_immich_users_stat`: on a transport error the `except` branch only
logs and the subsequent use of the unassigned `response_user_stats` raises
`UnboundLocalError`; otherwise the per-user loop runs and the four
aggregate records are appended after the per-user records. -/
def get_immich_users_stat (pref : String) (resp : Except Unit StatsResp) :
    Except PyErr (List MetricRecord) :=
  match resp with
  | Except.error _ => Except.error PyErr.unboundLocal
  | Except.ok r =>
    match getField r.usageByUser with
    | Except.error e => Except.error e
    | Except.ok user_data =>
      match usersLoop pref user_data 0 0 0 with
      | Except.error e => Except.error e
      | Except.ok (recs, pt, vt, ut) =>
        Except.ok (recs ++ [
          ⟨pref ++ "_server_stats_user_count",
            MetricValue.int (user_data.length : Int), [],
            "number of users on the immich server", none⟩,
          ⟨pref ++ "_server_stats_photos_growth", MetricValue.int pt, [],
            "photos counter that is added or removed", none⟩,
          ⟨pref ++ "_server_stats_videos_growth", MetricValue.int vt, [],
            "videos counter that is added or removed", none⟩,
          ⟨pref ++ "_server_stats_usage_growth", MetricValue.int ut, [],
            "videos counter that is added or removed", none⟩])

/-- `get_system_stats`: three load-average records, five memory records,
one cpu record, with the labels hard-coded in the source. -/
def get_system_stats (pref : String) (sys : SysStats) : List MetricRecord :=
  [⟨pref ++ "_system_info_loadAverage", sys.load1,
      [("period", "1m")], "CPU Load average 1m", none⟩,
   ⟨pref ++ "_system_info_loadAverage", sys.load5,
      [("period", "5m")], "CPU Load average 5m", none⟩,
   ⟨pref ++ "_system_info_loadAverage", sys.load15,
      [("period", "15m")], "CPU Load average 15m", none⟩,
   ⟨pref ++ "_system_info_memory", sys.memTotal,
      [("type", "Total")], "Virtual Memory - Total", none⟩,
   ⟨pref ++ "_system_info_memory", sys.memAvailable,
      [("type", "Available")], "Virtual Memory - Available", none⟩,
   ⟨pref ++ "_system_info_memory", sys.memPercent,
      [("type", "Percent")], "Virtual Memory - Percent", none⟩,
   ⟨pref ++ "_system_info_memory", sys.memUsed,
      [("type", "Used")], "Virtual Memory - Used", none⟩,
   ⟨pref ++ "_system_info_memory", sys.memFree,
      [("type", "Free")], "Virtual Memory - Free", none⟩,
   ⟨pref ++ "_system_info_cpu_usage", sys.cpu,
      [], "Representing the current system-wide CPU utilization as a percentage",
      none⟩]

/-- `get_immich_metrics`: concatenates the four transformers' outputs in
declaration order (version, storage, user stats, system stats); an
uncaught exception in any transformer propagates and aborts the whole
cycle.  The version argument is the response its internal retry loop
ended on (see `versionLoop` for the loop itself). -/
def get_immich_metrics (pref : String) (versionResp : VersionResp)
    (storageResp : Except Unit StorageResp)
    (statsResp : Except Unit StatsResp) (sys : SysStats) :
    Except PyErr (List MetricRecord) :=
  match get_immich_server_version_number pref versionResp with
  | Except.error e => Except.error e
  | Except.ok v =>
    match get_immich_storage pref storageResp with
    | Except.error e => Except.error e
    | Except.ok s =>
      match get_immich_users_stat pref statsResp with
      | Except.error e => Except.error e
      | Except.ok u =>
        Except.ok (v ++ s ++ u ++ get_system_stats pref sys)

/-- The `while True` retry loop at the top of
`get_immich_server_version_number`: attempt `i` performs the request; a
transport error logs and `continue`s (no sleep), a success `break`s with
the response.  The loop is given `fuel` iterations; `none` means the loop
is still spinning after `fuel` attempts. -/
def versionLoop (attempts : Nat → Except Unit VersionResp) :
    Nat → Nat → Option VersionResp
  | _, 0 => none
  | i, fuel + 1 =>
    match attempts i with
    | Except.ok r => some r
    | Except.error _ => versionLoop attempts (i + 1) fuel

/-- Whole-cycle model including the version retry loop: `none` when the
version loop has not ended within `fuel` attempts (so `collect()` has not
returned). -/
def get_immich_metrics_full (pref : String)
    (attempts : Nat → Except Unit VersionResp) (fuel : Nat)
    (storageResp : Except Unit StorageResp)
    (statsResp : Except Unit StatsResp) (sys : SysStats) :
    Option (Except PyErr (List MetricRecord)) :=
  match versionLoop attempts 0 fuel with
  | none => none
  | some vr => some (get_immich_metrics pref vr storageResp statsResp sys)

/-- State of `SignalHandler`: the `shutdown_count` attribute. -/
structure SignalHandler where
  shutdown_count : Nat
deriving DecidableEq, Repr

/-- How a signal delivery can terminate the process: `sysExit code` is
`sys.exit(code)` from inside the handler; `typeError` is an uncaught
`TypeError` escaping the handler call and killing the process. -/
inductive PyExit where
  | sysExit (code : Nat)
  | typeError
deriving DecidableEq, Repr

/-- The body of `SignalHandler._on_signal_received`: calls `sys.exit(1)`
when `shutdown_count > 1`, otherwise increments the counter. -/
def on_signal_received (s : SignalHandler) : Except PyExit SignalHandler :=
  if s.shutdown_count > 1 then Except.error (PyExit.sysExit 1)
  else Except.ok ⟨s.shutdown_count + 1⟩

/-- Number of parameters (beyond `self`) in the declaration
`def _on_signal_received(self):` — it accepts none. -/
def on_signal_received_arity : Nat := 0

/-- Number of positional arguments the Python runtime passes when it
invokes a registered signal handler: `handler(signum, frame)`. -/
def signalCallArgs : Nat := 2

/-- One real OS delivery of SIGINT/SIGTERM to the registered handler
(`signal.signal(..., self._on_signal_received)`): the runtime calls the
bound method with `(signum, frame)`, so the arity mismatch raises an
uncaught `TypeError` before the body runs; only if the declared arity
matched would the body execute. -/
def deliverSignal (s : SignalHandler) : Except PyExit SignalHandler :=
  if signalCallArgs ≠ on_signal_received_arity then
    Except.error PyExit.typeError
  else on_signal_received s

/-- Delivery of `n` successive SIGINT/SIGTERM signals to the registered
handler; `Except.error e` means the process terminated (`e` says how). -/
def deliverSignals : SignalHandler → Nat → Except PyExit SignalHandler
  | s, 0 => Except.ok s
  | s, n + 1 =>
    match deliverSignal s with
    | Except.error c => Except.error c
    | Except.ok s2 => deliverSignals s2 n

/-- `n` direct calls of the handler body, bypassing the OS delivery
convention — exhibits the escalation threshold the guard
`shutdown_count > 1` encodes, independently of the registration bug. -/
def callHandlerBody : SignalHandler → Nat → Except PyExit SignalHandler
  | s, 0 => Except.ok s
  | s, n + 1 =>
    match on_signal_received s with
    | Except.error c => Except.error c
    | Except.ok s2 => callHandlerBody s2 n

/-- `SignalHandler.is_shutting_down`. -/
def is_shutting_down (s : SignalHandler) : Bool := s.shutdown_count > 0

/-- The sleep (in seconds) performed by `check_server_up` after a failed
attempt, as a function of the `counter` value at that point — the exact
`if/elif/elif` chain of the source (the final 0 arm is unreachable for
`counter ≥ 1`). -/
def check_server_up_sleep (counter : Nat) : Nat :=
  if 0 ≤ counter ∧ counter ≤ 60 then 1
  else if 11 ≤ counter ∧ counter ≤ 300 then 15
  else if counter > 300 then 60
  else 0

/-- The `while True` loop of `check_server_up`: `counter` is incremented
at the top of each iteration, so attempt `n` (counted from 1) runs with
`counter = n`; each failed attempt records the pair
`(attempt number, seconds slept)`.  The trace ends at the first reachable
attempt or when `fuel` runs out. -/
def check_server_up_trace (ok : Nat → Bool) :
    Nat → Nat → List (Nat × Nat)
  | _, 0 => []
  | counter, fuel + 1 =>
    if ok (counter + 1) then []
    else (counter + 1, check_server_up_sleep (counter + 1)) ::
      check_server_up_trace ok (counter + 1) fuel

/-- A concrete host snapshot used by closed instantiations. -/
def demoSys : SysStats :=
  ⟨MetricValue.int 0, MetricValue.int 0, MetricValue.int 0,
   MetricValue.int 0, MetricValue.int 0, MetricValue.int 0,
   MetricValue.int 0, MetricValue.int 0, MetricValue.int 0⟩

/-- Three or more direct calls of the handler body end in `sys.exit(1)`:
the first two only increment `shutdown_count` (to 1 then 2) and the third
finds `shutdown_count > 1`. -/
lemma callHandlerBody_add_three (k : Nat) :
    callHandlerBody ⟨0⟩ (k + 3) = Except.error (PyExit.sysExit 1) := rfl

/-- The guard `shutdown_count > 1` in the handler body makes direct body
calls exit exactly from the third call on — so even with a correctly
declared handler signature, two signals would not suffice. -/
lemma handler_guard_exits_iff_three (n : Nat) :
    callHandlerBody ⟨0⟩ n = Except.error (PyExit.sysExit 1) ↔ 3 ≤ n := by
  constructor
  · intro h
    by_contra hn
    push_neg at hn
    interval_cases n <;> simp [callHandlerBody, on_signal_received] at h
  · intro h
    obtain ⟨k, rfl⟩ := Nat.exists_eq_add_of_le h
    rw [Nat.add_comm]
    exact callHandlerBody_add_three k

/-- C2 counterexample: the handler is registered as a bound method
declared without `(signum, frame)` parameters, so the very first real
signal delivery raises an uncaught `TypeError` that terminates the
process — the coordinator never reaches a Draining state with
`shutdown_count = 1`, one signal (not two) suffices, and two signals do
not produce the claimed forced `sys.exit(1)`. -/
theorem C2_first_signal_kills_process :
    deliverSignals ⟨0⟩ 1 = Except.error PyExit.typeError ∧
    deliverSignals ⟨0⟩ 2 = Except.error PyExit.typeError ∧
    deliverSignals ⟨0⟩ 2 ≠ Except.error (PyExit.sysExit 1) := by
  refine ⟨rfl, rfl, ?_⟩
  intro h
  simp [deliverSignals, deliverSignal, signalCallArgs,
    on_signal_received_arity] at h

/-- C2 (amended): every delivery of one or more SIGINT/SIGTERM signals
terminates the process at the first delivery, non-gracefully, via the
uncaught `TypeError` from the arity-mismatched handler registration; the
escalation logic of the handler body never runs. -/
theorem C2_any_signal_terminates_via_typeerror (n : Nat) (h : 1 ≤ n) :
    deliverSignals ⟨0⟩ n = Except.error PyExit.typeError := by
  obtain ⟨m, rfl⟩ := Nat.exists_eq_add_of_le h
  rw [Nat.add_comm]
  rfl

/-- C2 witness: two delivered signals terminate the process with the
`TypeError` crash (already at the first delivery). -/
theorem C2_any_signal_terminates_via_typeerror_witness :
    deliverSignals ⟨0⟩ 2 = Except.error PyExit.typeError :=
  C2_any_signal_terminates_via_typeerror 2 (by decide)

/-- Every entry of a `check_server_up` trace records the sleep computed by
`check_server_up_sleep` at its own attempt number, and attempt numbers are
strictly above the starting counter. -/
lemma check_server_up_trace_mem (ok : Nat → Bool) :
    ∀ (fuel counter : Nat) (p : Nat × Nat),
      p ∈ check_server_up_trace ok counter fuel →
      p.2 = check_server_up_sleep p.1 ∧ counter < p.1 := by
  intro fuel
  induction fuel with
  | zero => intro counter p hp; simp [check_server_up_trace] at hp
  | succ f ih =>
    intro counter p hp
    rw [check_server_up_trace] at hp
    split at hp
    · simp at hp
    · rcases List.mem_cons.mp hp with h1 | h1
      · subst h1; exact ⟨rfl, Nat.lt_succ_self counter⟩
      · have h2 := ih (counter + 1) p h1
        exact ⟨h2.1, Nat.lt_of_succ_lt h2.2⟩

/-- C3: in the reachability probe's retry loop, the sleep after failed
attempt `n` (attempts counted from 1) is 1 second for `n ≤ 60`, 15 seconds
for `61 ≤ n ≤ 300` and 60 seconds for `n > 300`. -/
theorem C3_tiered_backoff (ok : Nat → Bool) (fuel : Nat) (p : Nat × Nat)
    (hp : p ∈ check_server_up_trace ok 0 fuel) :
    1 ≤ p.1 ∧
      (p.1 ≤ 60 → p.2 = 1) ∧
      (61 ≤ p.1 → p.1 ≤ 300 → p.2 = 15) ∧
      (300 < p.1 → p.2 = 60) := by
  obtain ⟨hs, hpos⟩ := check_server_up_trace_mem ok fuel 0 p hp
  refine ⟨hpos, ?_, ?_, ?_⟩
  · intro h; rw [hs]; unfold check_server_up_sleep
    rw [if_pos (show 0 ≤ p.1 ∧ p.1 ≤ 60 by omega)]
  · intro h1 h2; rw [hs]; unfold check_server_up_sleep
    rw [if_neg (show ¬(0 ≤ p.1 ∧ p.1 ≤ 60) by omega),
      if_pos (show 11 ≤ p.1 ∧ p.1 ≤ 300 by omega)]
  · intro h; rw [hs]; unfold check_server_up_sleep
    rw [if_neg (show ¬(0 ≤ p.1 ∧ p.1 ≤ 60) by omega),
      if_neg (show ¬(11 ≤ p.1 ∧ p.1 ≤ 300) by omega),
      if_pos (show p.1 > 300 by omega)]

/-- C3 witness: attempt 61 of an all-failing probe sleeps 15 seconds. -/
theorem C3_tiered_backoff_witness :
    1 ≤ (61, 15).1 ∧
      ((61, 15).1 ≤ 60 → (61, 15).2 = 1) ∧
      (61 ≤ (61, 15).1 → (61, 15).1 ≤ 300 → (61, 15).2 = 15) ∧
      (300 < (61, 15).1 → (61, 15).2 = 60) :=
  C3_tiered_backoff (fun _ => false) 61 (61, 15) (by decide)

/-- A `"a.b.c"`-shaped string is nonempty, so Python `bool()` of it is
`True`. -/
lemma pyBool_dot (a b c : String) :
    pyBool (a ++ "." ++ b ++ "." ++ c) = true := by
  have hne : a ++ "." ++ b ++ "." ++ c ≠ "" := by
    intro h
    have hl := congrArg String.length h
    rw [String.length_append, String.length_append, String.length_append,
      String.length_append] at hl
    have h1 : ("." : String).length = 1 := rfl
    have h0 : ("" : String).length = 0 := rfl
    rw [h1, h0] at hl
    omega
  simp [pyBool, hne]

/-- C7: on a version response with all three fields present the version
transformer emits exactly one record named
`<pref>_server_info_version_number`, with value `true` (Python
`bool("major.minor.patch")`), and the `version` label carrying the
dotted string. -/
theorem C7_version_record (pref : String) (ma mi pa : Int) :
    get_immich_server_version_number pref ⟨some ma, some mi, some pa⟩ =
      Except.ok [⟨pref ++ "_server_info_version_number",
        MetricValue.bool true,
        [("version", toString ma ++ "." ++ toString mi ++ "." ++ toString pa)],
        "server version number", none⟩] := by
  simp [get_immich_server_version_number, getField, pyBool_dot]

/-- C8: on a storage response with all four fields present the storage
transformer emits exactly the four unlabeled records, carrying the
response's `diskAvailableRaw`, `diskSizeRaw`, `diskUseRaw` and
`diskUsagePercentage` values, and all four are gauges. -/
theorem C8_storage_records (pref : String) (a s u p : Int) :
    get_immich_storage pref (Except.ok ⟨some a, some s, some u, some p⟩) =
      Except.ok [
        ⟨pref ++ "_server_info_diskAvailable", MetricValue.int a, [],
          "Available space on disk", none⟩,
        ⟨pref ++ "_server_info_totalDiskSize", MetricValue.int s, [],
          "total disk size", none⟩,
        ⟨pref ++ "_server_info_diskUse", MetricValue.int u, [],
          "disk space in use", none⟩,
        ⟨pref ++ "_server_info_diskUsagePercentage", MetricValue.int p, [],
          "disk usage in percent", none⟩] ∧
      ([⟨pref ++ "_server_info_diskAvailable", MetricValue.int a, [],
          "Available space on disk", none⟩,
        ⟨pref ++ "_server_info_totalDiskSize", MetricValue.int s, [],
          "total disk size", none⟩,
        ⟨pref ++ "_server_info_diskUse", MetricValue.int u, [],
          "disk space in use", none⟩,
        ⟨pref ++ "_server_info_diskUsagePercentage", MetricValue.int p, [],
          "disk usage in percent", none⟩] : List MetricRecord).all
        (fun r => recordMetricType r == "gauge") = true :=
  ⟨rfl, rfl⟩

/-- C1: a transport error on the `/storage` request makes the whole
collection cycle abort with `UnboundLocalError` — `get_immich_storage`
catches and logs the request exception but then falls through to use the
never-assigned `response_storage`, and that exception propagates out of
`get_immich_metrics`, so no records at all (not even the version and
statistics records) are produced for the cycle. -/
theorem C1_storage_transport_error_aborts_cycle (pref : String)
    (ma mi pa : Int) (statsResp : Except Unit StatsResp) (sys : SysStats) :
    get_immich_metrics pref ⟨some ma, some mi, some pa⟩ (Except.error ())
      statsResp sys = Except.error PyErr.unboundLocal := rfl

/-- C4 counterexample: a statistics response lacking the `usageByUser`
field (with `/version` and `/storage` both healthy) makes the whole
scrape abort with `KeyError` instead of dropping only the user-stats
transformer's contribution. -/
theorem C4_missing_field_crashes_scrape :
    get_immich_metrics "immich" ⟨some 1, some 2, some 3⟩
      (Except.ok ⟨some 100, some 500, some 400, some 80⟩)
      (Except.ok ⟨none⟩) demoSys = Except.error PyErr.keyError := rfl

/-- C4 (amended): a response with a missing expected field (here
`usageByUser` absent from the statistics response) raises an uncaught
`KeyError` that aborts the entire cycle: no transformer's records are
produced for that scrape. -/
theorem C4_missing_field_aborts_whole_cycle (pref : String)
    (ma mi pa a s u p : Int) (sys : SysStats) :
    get_immich_metrics pref ⟨some ma, some mi, some pa⟩
      (Except.ok ⟨some a, some s, some u, some p⟩)
      (Except.ok ⟨none⟩) sys = Except.error PyErr.keyError := rfl

/-- If every `/version` attempt fails with a transport error, the retry
loop spins forever: no amount of fuel makes it produce a response. -/
lemma versionLoop_all_fail (attempts : Nat → Except Unit VersionResp)
    (h : ∀ i, attempts i = Except.error ()) :
    ∀ (fuel start : Nat), versionLoop attempts start fuel = none := by
  intro fuel
  induction fuel with
  | zero => intro start; rfl
  | succ f ih =>
    intro start
    simp only [versionLoop, h start]
    exact ih (start + 1)

/-- The version retry loop returns the first successful response. -/
lemma versionLoop_first_success (attempts : Nat → Except Unit VersionResp)
    (r : VersionResp) :
    ∀ (k start fuel : Nat),
      (∀ i, i < k → attempts (start + i) = Except.error ()) →
      attempts (start + k) = Except.ok r → k < fuel →
      versionLoop attempts start fuel = some r := by
  intro k
  induction k with
  | zero =>
    intro start fuel hfail hok hf
    cases fuel with
    | zero => exact absurd hf (Nat.not_lt_zero 0)
    | succ f =>
      rw [Nat.add_zero] at hok
      simp [versionLoop, hok]
  | succ k ih =>
    intro start fuel hfail hok hf
    cases fuel with
    | zero => exact absurd hf (Nat.not_lt_zero _)
    | succ f =>
      have h0 : attempts start = Except.error () := by
        have h1 := hfail 0 (Nat.succ_pos k)
        rw [Nat.add_zero] at h1
        exact h1
      simp only [versionLoop, h0]
      apply ih (start + 1) f
      · intro i hi
        have h2 := hfail (i + 1) (Nat.succ_lt_succ hi)
        rw [show start + (i + 1) = start + 1 + i by omega] at h2
        exact h2
      · rw [show start + 1 + k = start + (k + 1) by omega]
        exact hok
      · exact Nat.lt_of_succ_lt_succ hf

/-- C10: the `/version` fetch inside the cycle retries in an unbounded
loop (no sleep appears in its body) until an attempt succeeds: (a) if
every attempt fails with a transport error the loop never ends, so the
whole cycle never returns, for any fuel; (b) otherwise the loop ends at
the first successful attempt with that response; (c) by contrast a
transport failure of the `/storage` or `/statistics` request is not
retried — those transformers raise immediately. -/
theorem C10_version_retry_loop :
    (∀ (attempts : Nat → Except Unit VersionResp),
        (∀ i, attempts i = Except.error ()) →
        ∀ (pref : String) (fuel : Nat)
          (storageResp : Except Unit StorageResp)
          (statsResp : Except Unit StatsResp) (sys : SysStats),
          get_immich_metrics_full pref attempts fuel storageResp statsResp
            sys = none) ∧
    (∀ (attempts : Nat → Except Unit VersionResp) (r : VersionResp)
        (k : Nat),
        (∀ i, i < k → attempts i = Except.error ()) →
        attempts k = Except.ok r →
        ∀ fuel, k < fuel → versionLoop attempts 0 fuel = some r) ∧
    (∀ (pref : String),
        get_immich_storage pref (Except.error ()) =
          Except.error PyErr.unboundLocal ∧
        get_immich_users_stat pref (Except.error ()) =
          Except.error PyErr.unboundLocal) := by
  refine ⟨?_, ?_, ?_⟩
  · intro attempts h pref fuel st sr sys
    unfold get_immich_metrics_full
    rw [versionLoop_all_fail attempts h fuel 0]
  · intro attempts r k hfail hok fuel hf
    apply versionLoop_first_success attempts r k 0 fuel
    · intro i hi
      rw [Nat.zero_add]
      exact hfail i hi
    · rw [Nat.zero_add]
      exact hok
    · exact hf
  · intro pref
    exact ⟨rfl, rfl⟩

/-- C10 witness: with every attempt failing the cycle returns nothing at
fuel 5; with the first success at attempt index 2 the loop returns that
response at fuel 3; storage is not retried. -/
theorem C10_version_retry_loop_witness :
    get_immich_metrics_full "immich" (fun _ => Except.error ()) 5
        (Except.ok ⟨some 100, some 500, some 400, some 80⟩)
        (Except.ok ⟨some []⟩) demoSys = none ∧
    versionLoop
        (fun i => if i < 2 then Except.error ()
          else Except.ok ⟨some 1, some 2, some 3⟩) 0 3 =
      some ⟨some 1, some 2, some 3⟩ :=
  ⟨C10_version_retry_loop.1 (fun _ => Except.error ()) (fun _ => rfl)
      "immich" 5 (Except.ok ⟨some 100, some 500, some 400, some 80⟩)
      (Except.ok ⟨some []⟩) demoSys,
   C10_version_retry_loop.2.1
      (fun i => if i < 2 then Except.error ()
        else Except.ok ⟨some 1, some 2, some 3⟩)
      ⟨some 1, some 2, some 3⟩ 2
      (by intro i hi; interval_cases i <;> rfl) rfl 3 (by decide)⟩

/-- A user entry the Python loop processes without raising: all four
fields present and the user name has at least one whitespace token
(otherwise `split()[0]` raises `IndexError`). -/
def userValid (u : UserEntry) : Bool :=
  u.userName.isSome && u.photos.isSome && u.videos.isSome &&
    u.usage.isSome && !(pySplit (u.userName.getD "")).isEmpty

/-- The three per-user records, stated over the entry itself. -/
def perUserRecords (pref : String) (u : UserEntry) : List MetricRecord :=
  userRecords pref (u.photos.getD 0) (u.videos.getD 0) (u.usage.getD 0)
    (firstTokenD (u.userName.getD ""))

/-- Arithmetic sum of the per-user `photos` fields. -/
def sumPhotos (users : List UserEntry) : Int :=
  (users.map (fun u => u.photos.getD 0)).sum

/-- Arithmetic sum of the per-user `videos` fields. -/
def sumVideos (users : List UserEntry) : Int :=
  (users.map (fun u => u.videos.getD 0)).sum

/-- Arithmetic sum of the per-user `usage` fields. -/
def sumUsage (users : List UserEntry) : Int :=
  (users.map (fun u => u.usage.getD 0)).sum

/-- The four aggregate records that close the user-stats output: the user
count is the length of `usageByUser` and the three growth totals are the
exact sums of the per-user fields. -/
def aggregateRecords (pref : String) (users : List UserEntry) :
    List MetricRecord :=
  [⟨pref ++ "_server_stats_user_count",
      MetricValue.int (users.length : Int), [],
      "number of users on the immich server", none⟩,
   ⟨pref ++ "_server_stats_photos_growth",
      MetricValue.int (sumPhotos users), [],
      "photos counter that is added or removed", none⟩,
   ⟨pref ++ "_server_stats_videos_growth",
      MetricValue.int (sumVideos users), [],
      "videos counter that is added or removed", none⟩,
   ⟨pref ++ "_server_stats_usage_growth",
      MetricValue.int (sumUsage users), [],
      "videos counter that is added or removed", none⟩]

/-- On a string with at least one token, `split()[0]` succeeds and
returns the first token. -/
lemma pyFirstToken_of_ne (s : String) (h : pySplit s ≠ []) :
    pyFirstToken s = Except.ok (firstTokenD s) := by
  rcases hsp : pySplit s with _ | ⟨t, ts⟩
  · exact absurd hsp h
  · rw [pyFirstToken, firstTokenD, hsp]

/-- The per-user loop, on a list of valid entries, produces exactly the
three records per user in order and adds the exact field sums to the
running totals. -/
lemma usersLoop_ok (pref : String) :
    ∀ (users : List UserEntry) (a b c : Int),
      (∀ u ∈ users, userValid u = true) →
      usersLoop pref users a b c =
        Except.ok (users.flatMap (perUserRecords pref),
          a + sumPhotos users, b + sumVideos users, c + sumUsage users) := by
  intro users
  induction users with
  | nil =>
    intro a b c h
    simp [usersLoop, sumPhotos, sumVideos, sumUsage]
  | cons u rest ih =>
    intro a b c h
    have hu := h u (List.mem_cons_self u rest)
    simp only [userValid, Bool.and_eq_true] at hu
    obtain ⟨⟨⟨⟨hn, hp⟩, hv⟩, hus⟩, ht⟩ := hu
    obtain ⟨nm, hnm⟩ := Option.isSome_iff_exists.mp hn
    obtain ⟨ph, hph⟩ := Option.isSome_iff_exists.mp hp
    obtain ⟨vi, hvi⟩ := Option.isSome_iff_exists.mp hv
    obtain ⟨us, hus2⟩ := Option.isSome_iff_exists.mp hus
    have hone : pySplit nm ≠ [] := by
      intro hE
      rw [hnm] at ht
      simp [hE] at ht
    have hrest : ∀ u2 ∈ rest, userValid u2 = true :=
      fun u2 hu2 => h u2 (List.mem_cons_of_mem u hu2)
    rw [usersLoop, hph, hvi, hus2, hnm]
    simp only [getField]
    rw [pyFirstToken_of_ne nm hone, ih (a + ph) (b + vi) (c + us) hrest]
    simp [perUserRecords, hph, hvi, hus2, hnm, sumPhotos, sumVideos,
      sumUsage, add_assoc]

/-- `get_immich_users_stat` on a valid statistics response: the per-user
records in user order followed by the four aggregates. -/
lemma users_stat_ok (pref : String) (users : List UserEntry)
    (h : ∀ u ∈ users, userValid u = true) :
    get_immich_users_stat pref (Except.ok ⟨some users⟩) =
      Except.ok (users.flatMap (perUserRecords pref) ++
        aggregateRecords pref users) := by
  rw [get_immich_users_stat]
  simp only [getField]
  rw [usersLoop_ok pref users 0 0 0 h]
  simp [aggregateRecords]

/-- Every per-user record is a gauge (no record sets a `"type"` entry). -/
lemma flatMap_perUser_gauge (pref : String) :
    ∀ (users : List UserEntry),
      (users.flatMap (perUserRecords pref)).all
        (fun r => recordMetricType r == "gauge") = true := by
  intro users
  induction users with
  | nil => rfl
  | cons u rest ih =>
    simp [List.flatMap_cons, List.all_append, ih, perUserRecords,
      userRecords, recordMetricType]

/-- Each user contributes exactly three records. -/
lemma flatMap_perUser_length (pref : String) :
    ∀ (users : List UserEntry),
      (users.flatMap (perUserRecords pref)).length = 3 * users.length := by
  intro users
  induction users with
  | nil => rfl
  | cons u rest ih =>
    simp [List.flatMap_cons, perUserRecords, userRecords, ih]
    omega

/-- C6: on a valid statistics response the user-stats transformer emits,
per user in order, exactly the three labeled records (photos, videos,
usage) whose `firstName` label is the first whitespace token of that
user's `userName`, followed by the four aggregate records; and every one
of those records is a gauge. -/
theorem C6_per_user_record_shape (pref : String) (users : List UserEntry)
    (h : ∀ u ∈ users, userValid u = true) :
    get_immich_users_stat pref (Except.ok ⟨some users⟩) =
      Except.ok (users.flatMap (perUserRecords pref) ++
        aggregateRecords pref users) ∧
    (users.flatMap (perUserRecords pref) ++
        aggregateRecords pref users).all
      (fun r => recordMetricType r == "gauge") = true := by
  refine ⟨users_stat_ok pref users h, ?_⟩
  rw [List.all_append, flatMap_perUser_gauge pref users]
  simp [aggregateRecords, recordMetricType]

/-- C6 witness: the two-user scenario from the specification
(`Ann Lee`/`Bo Ng`) yields the six per-user records followed by the four
aggregates. -/
theorem C6_per_user_record_shape_witness :
    get_immich_users_stat "immich"
        (Except.ok ⟨some [⟨some "Ann Lee", some 3, some 1, some 100⟩,
          ⟨some "Bo Ng", some 2, some 0, some 50⟩]⟩) =
      Except.ok
        ([⟨some "Ann Lee", some 3, some 1, some 100⟩,
          ⟨some "Bo Ng", some 2, some 0, some 50⟩].flatMap
            (perUserRecords "immich") ++
          aggregateRecords "immich"
            [⟨some "Ann Lee", some 3, some 1, some 100⟩,
             ⟨some "Bo Ng", some 2, some 0, some 50⟩]) :=
  (C6_per_user_record_shape "immich"
    [⟨some "Ann Lee", some 3, some 1, some 100⟩,
     ⟨some "Bo Ng", some 2, some 0, some 50⟩] (by decide)).1

/-- C5: on a valid statistics response the output has `3·n + 4` records,
and the last four are the aggregates: the user count equals the length of
`usageByUser`, and the three growth values are the exact arithmetic sums
of the per-user `photos`, `videos` and `usage` fields. -/
theorem C5_aggregate_values (pref : String) (users : List UserEntry)
    (h : ∀ u ∈ users, userValid u = true) :
    get_immich_users_stat pref (Except.ok ⟨some users⟩) =
      Except.ok (users.flatMap (perUserRecords pref) ++
        aggregateRecords pref users) ∧
    (users.flatMap (perUserRecords pref) ++
        aggregateRecords pref users).length = 3 * users.length + 4 ∧
    (users.flatMap (perUserRecords pref) ++
        aggregateRecords pref users).drop (3 * users.length) =
      aggregateRecords pref users := by
  refine ⟨users_stat_ok pref users h, ?_, ?_⟩
  · rw [List.length_append, flatMap_perUser_length pref users]
    rfl
  · rw [← flatMap_perUser_length pref users, List.drop_left]

/-- C5 witness: the two-user scenario has `3·2 + 4 = 10` records and its
last four records are the aggregates (`user_count = 2`,
`photos_growth = 5`, `videos_growth = 1`, `usage_growth = 150`). -/
theorem C5_aggregate_values_witness :
    (([⟨some "Ann Lee", some 3, some 1, some 100⟩,
        ⟨some "Bo Ng", some 2, some 0, some 50⟩] :
          List UserEntry).flatMap (perUserRecords "immich") ++
      aggregateRecords "immich"
        [⟨some "Ann Lee", some 3, some 1, some 100⟩,
         ⟨some "Bo Ng", some 2, some 0, some 50⟩]).length =
      3 * ([⟨some "Ann Lee", some 3, some 1, some 100⟩,
        ⟨some "Bo Ng", some 2, some 0, some 50⟩] :
          List UserEntry).length + 4 :=
  (C5_aggregate_values "immich"
    [⟨some "Ann Lee", some 3, some 1, some 100⟩,
     ⟨some "Bo Ng", some 2, some 0, some 50⟩] (by decide)).2.1

/-- String append is left-cancellative. -/
lemma append_left_cancel_str (p s t : String) (h : p ++ s = p ++ t) :
    s = t := by
  apply String.ext
  have hd := congrArg String.data h
  rw [String.data_append, String.data_append] at hd
  exact List.append_cancel_left hd

/-- Every metric family the exporter can emit: name suffix (appended to
the configured prefix) with its ordered label-key set. -/
def familyTable : List (String × List String) :=
  [("_server_info_version_number", ["version"]),
   ("_server_info_diskAvailable", []),
   ("_server_info_totalDiskSize", []),
   ("_server_info_diskUse", []),
   ("_server_info_diskUsagePercentage", []),
   ("_server_stats_photos_by_users", ["firstName"]),
   ("_server_stats_videos_by_users", ["firstName"]),
   ("_server_stats_usage_by_users", ["firstName"]),
   ("_server_stats_user_count", []),
   ("_server_stats_photos_growth", []),
   ("_server_stats_videos_growth", []),
   ("_server_stats_usage_growth", []),
   ("_system_info_loadAverage", ["period"]),
   ("_system_info_memory", ["type"]),
   ("_system_info_cpu_usage", [])]

/-- The family table is functional: a suffix determines its label keys. -/
lemma familyTable_functional :
    ∀ e1 ∈ familyTable, ∀ e2 ∈ familyTable, e1.1 = e2.1 → e1.2 = e2.2 := by
  decide

/-- A record belongs to one of the documented families: its name is the
prefix plus a table suffix, and its label keys are that family's keys. -/
def recFamilyOk (pref : String) (r : MetricRecord) : Prop :=
  ∃ e ∈ familyTable, r.name = pref ++ e.1 ∧ labelKeys r = e.2

/-- Every record the version transformer emits is in the family table. -/
lemma version_mem (pref : String) (vr : VersionResp) (l : List MetricRecord)
    (h : get_immich_server_version_number pref vr = Except.ok l) :
    ∀ r ∈ l, recFamilyOk pref r := by
  obtain ⟨ma, mi, pa⟩ := vr
  cases ma <;> cases mi <;> cases pa <;>
    simp [get_immich_server_version_number, getField] at h
  intro r hr
  rw [← h] at hr
  simp at hr
  subst hr
  exact ⟨("_server_info_version_number", ["version"]), by decide, rfl, rfl⟩

/-- Every record the storage transformer emits is in the family table. -/
lemma storage_mem (pref : String) (resp : Except Unit StorageResp)
    (l : List MetricRecord)
    (h : get_immich_storage pref resp = Except.ok l) :
    ∀ r ∈ l, recFamilyOk pref r := by
  cases resp with
  | error e => simp [get_immich_storage] at h
  | ok st =>
    obtain ⟨a, s, u, p⟩ := st
    cases a <;> cases s <;> cases u <;> cases p <;>
      simp [get_immich_storage, getField] at h
    intro r hr
    rw [← h] at hr
    simp at hr
    rcases hr with rfl | rfl | rfl | rfl
    · exact ⟨("_server_info_diskAvailable", []), by decide, rfl, rfl⟩
    · exact ⟨("_server_info_totalDiskSize", []), by decide, rfl, rfl⟩
    · exact ⟨("_server_info_diskUse", []), by decide, rfl, rfl⟩
    · exact ⟨("_server_info_diskUsagePercentage", []), by decide, rfl, rfl⟩

/-- Every record the per-user loop emits is in the family table. -/
lemma usersLoop_mem (pref : String) :
    ∀ (users : List UserEntry) (a b c : Int) (recs : List MetricRecord)
      (pt vt ut : Int),
      usersLoop pref users a b c = Except.ok (recs, pt, vt, ut) →
      ∀ r ∈ recs, recFamilyOk pref r := by
  intro users
  induction users with
  | nil =>
    intro a b c recs pt vt ut h r hr
    simp [usersLoop] at h
    rw [h.1] at hr
    simp at hr
  | cons u rest ih =>
    intro a b c recs pt vt ut h r hr
    rw [usersLoop] at h
    cases hph : getField u.photos with
    | error e => simp [hph] at h
    | ok ph =>
      simp only [hph] at h
      cases hvi : getField u.videos with
      | error e => simp [hvi] at h
      | ok vi =>
        simp only [hvi] at h
        cases hus : getField u.usage with
        | error e => simp [hus] at h
        | ok us =>
          simp only [hus] at h
          cases hnm : getField u.userName with
          | error e => simp [hnm] at h
          | ok nm =>
            simp only [hnm] at h
            cases htok : pyFirstToken nm with
            | error e => simp [htok] at h
            | ok tok =>
              simp only [htok] at h
              cases hrest : usersLoop pref rest (a + ph) (b + vi) (c + us) with
              | error e => simp [hrest] at h
              | ok tup =>
                obtain ⟨more, pt2, vt2, ut2⟩ := tup
                simp only [hrest] at h
                simp at h
                obtain ⟨h1, h2, h3, h4⟩ := h
                subst h1
                rcases List.mem_append.mp hr with hL | hR
                · simp [userRecords] at hL
                  rcases hL with rfl | rfl | rfl
                  · exact ⟨("_server_stats_photos_by_users", ["firstName"]),
                      by decide, rfl, rfl⟩
                  · exact ⟨("_server_stats_videos_by_users", ["firstName"]),
                      by decide, rfl, rfl⟩
                  · exact ⟨("_server_stats_usage_by_users", ["firstName"]),
                      by decide, rfl, rfl⟩
                · exact ih (a + ph) (b + vi) (c + us) more pt2 vt2 ut2
                    hrest r hR

/-- Every record the user-stats transformer emits is in the family
table. -/
lemma users_stat_mem (pref : String) (resp : Except Unit StatsResp)
    (l : List MetricRecord)
    (h : get_immich_users_stat pref resp = Except.ok l) :
    ∀ r ∈ l, recFamilyOk pref r := by
  cases resp with
  | error e => simp [get_immich_users_stat] at h
  | ok st =>
    obtain ⟨ub⟩ := st
    cases ub with
    | none => simp [get_immich_users_stat, getField] at h
    | some users =>
      rw [get_immich_users_stat] at h
      simp only [getField] at h
      cases hlp : usersLoop pref users 0 0 0 with
      | error e => rw [hlp] at h; simp at h
      | ok tup =>
        obtain ⟨recs, pt, vt, ut⟩ := tup
        rw [hlp] at h
        simp at h
        intro r hr
        rw [← h] at hr
        rcases List.mem_append.mp hr with hL | hR
        · exact usersLoop_mem pref users 0 0 0 recs pt vt ut hlp r hL
        · simp at hR
          rcases hR with rfl | rfl | rfl | rfl
          · exact ⟨("_server_stats_user_count", []), by decide, rfl, rfl⟩
          · exact ⟨("_server_stats_photos_growth", []), by decide, rfl, rfl⟩
          · exact ⟨("_server_stats_videos_growth", []), by decide, rfl, rfl⟩
          · exact ⟨("_server_stats_usage_growth", []), by decide, rfl, rfl⟩

/-- Every record the system-stats transformer emits is in the family
table. -/
lemma system_mem (pref : String) (sys : SysStats) :
    ∀ r ∈ get_system_stats pref sys, recFamilyOk pref r := by
  intro r hr
  simp [get_system_stats] at hr
  rcases hr with rfl | rfl | rfl | rfl | rfl | rfl | rfl | rfl | rfl
  · exact ⟨("_system_info_loadAverage", ["period"]), by decide, rfl, rfl⟩
  · exact ⟨("_system_info_loadAverage", ["period"]), by decide, rfl, rfl⟩
  · exact ⟨("_system_info_loadAverage", ["period"]), by decide, rfl, rfl⟩
  · exact ⟨("_system_info_memory", ["type"]), by decide, rfl, rfl⟩
  · exact ⟨("_system_info_memory", ["type"]), by decide, rfl, rfl⟩
  · exact ⟨("_system_info_memory", ["type"]), by decide, rfl, rfl⟩
  · exact ⟨("_system_info_memory", ["type"]), by decide, rfl, rfl⟩
  · exact ⟨("_system_info_memory", ["type"]), by decide, rfl, rfl⟩
  · exact ⟨("_system_info_cpu_usage", []), by decide, rfl, rfl⟩

/-- Every record a successful full cycle emits is in the family table. -/
lemma metrics_mem (pref : String) (vr : VersionResp)
    (st : Except Unit StorageResp) (sr : Except Unit StatsResp)
    (sys : SysStats) (l : List MetricRecord)
    (h : get_immich_metrics pref vr st sr sys = Except.ok l) :
    ∀ r ∈ l, recFamilyOk pref r := by
  rw [get_immich_metrics] at h
  cases hv : get_immich_server_version_number pref vr with
  | error e => rw [hv] at h; simp at h
  | ok v =>
    rw [hv] at h
    cases hs : get_immich_storage pref st with
    | error e => rw [hs] at h; simp at h
    | ok s =>
      rw [hs] at h
      cases hu : get_immich_users_stat pref sr with
      | error e => rw [hu] at h; simp at h
      | ok u =>
        rw [hu] at h
        simp at h
        intro r hr
        rw [← h] at hr
        rcases List.mem_append.mp hr with hrv | hr2
        · exact version_mem pref vr v hv r hrv
        · rcases List.mem_append.mp hr2 with hrs | hr3
          · exact storage_mem pref st s hs r hrs
          · rcases List.mem_append.mp hr3 with hru | hrsys
            · exact users_stat_mem pref sr u hu r hru
            · exact system_mem pref sys r hrsys

/-- C9: in one successful collection cycle, any two emitted records that
share a name have identical ordered label-key lists — label-key
consistency per metric family holds across all four transformers'
outputs, including the multi-record loadAverage and memory families. -/
theorem C9_label_key_consistency (pref : String) (vr : VersionResp)
    (st : Except Unit StorageResp) (sr : Except Unit StatsResp)
    (sys : SysStats) (l : List MetricRecord)
    (h : get_immich_metrics pref vr st sr sys = Except.ok l) :
    ∀ r1 ∈ l, ∀ r2 ∈ l, r1.name = r2.name →
      labelKeys r1 = labelKeys r2 := by
  intro r1 h1 r2 h2 hn
  obtain ⟨e1, he1, hn1, hk1⟩ := metrics_mem pref vr st sr sys l h r1 h1
  obtain ⟨e2, he2, hn2, hk2⟩ := metrics_mem pref vr st sr sys l h r2 h2
  have hpp : pref ++ e1.1 = pref ++ e2.1 := by
    rw [← hn1, ← hn2]; exact hn
  have hsuf := append_left_cancel_str pref e1.1 e2.1 hpp
  rw [hk1, hk2]
  exact familyTable_functional e1 he1 e2 he2 hsuf

/-- The record list of a concrete healthy cycle, used to instantiate the
label-key consistency theorem. -/
def demoMetrics : List MetricRecord :=
  match get_immich_metrics "immich" ⟨some 1, some 2, some 3⟩
      (Except.ok ⟨some 100, some 500, some 400, some 80⟩)
      (Except.ok ⟨some []⟩) demoSys with
  | Except.ok l => l
  | Except.error _ => []

/-- C9 witness: in the concrete healthy cycle, the two loadAverage
records (which share a name) have identical label-key lists. -/
theorem C9_label_key_consistency_witness :
    labelKeys ⟨"immich_system_info_loadAverage", MetricValue.int 0,
        [("period", "1m")], "CPU Load average 1m", none⟩ =
      labelKeys ⟨"immich_system_info_loadAverage", MetricValue.int 0,
        [("period", "5m")], "CPU Load average 5m", none⟩ :=
  C9_label_key_consistency "immich" ⟨some 1, some 2, some 3⟩
    (Except.ok ⟨some 100, some 500, some 400, some 80⟩)
    (Except.ok ⟨some []⟩) demoSys demoMetrics rfl
    ⟨"immich_system_info_loadAverage", MetricValue.int 0,
      [("period", "1m")], "CPU Load average 1m", none⟩ (by decide)
    ⟨"immich_system_info_loadAverage", MetricValue.int 0,
      [("period", "5m")], "CPU Load average 5m", none⟩ (by decide) rfl
